import Mathlib

/-!
Shallow embedding of `src/tradexa_assignment_2.py`: a validated concurrent
bulk-insert pipeline.  Python dictionaries become association lists over a
`Value` type, the validators (`ValidationRules.validate_user`,
`validate_product`, `validate_order`) become functions returning
`Except PyExc (Option String)` (an `Except.error` models an uncaught Python
exception escaping the validator, e.g. `AttributeError` from calling
`.strip()` on a non-string), `DatabaseManager._insert_record` becomes
`insertRecord`, and the per-kind part of `simulate_insertions` becomes
`runWorkers` (one worker per record, writes serialized by the global lock)
followed by `collectResults` (the `as_completed` / `future.result()`
collection loop, parameterized by the completion order).

The embedding is restricted to ASCII strings; `re`'s character classes in the
source are ASCII classes, and `\s` / `str.strip` are modelled on the six
ASCII whitespace characters.
-/

/-- Exception classes relevant to the program.  `sqliteError` models
`sqlite3.Error` (the only class caught by `_insert_record`); `typeError` and
`valueError` model the classes caught around `float(price)`;
`attributeError` models e.g. `(123).strip()`. -/
inductive PyExc where
  | attributeError : PyExc
  | typeError : PyExc
  | valueError : PyExc
  | sqliteError : String → PyExc
  | otherError : String → PyExc
deriving DecidableEq, Repr

/-- A Python `float` value as produced by `float(...)`: a finite value
(modelled exactly as a rational; the validator only uses the sign test
`price_float < 0`, for which exact rational semantics agree with IEEE
semantics on every value the program handles), or an infinity, or NaN. -/
inductive PyFloat where
  | fin : Rat → PyFloat
  | inf : PyFloat
  | ninf : PyFloat
  | nan : PyFloat
deriving DecidableEq, Repr

/-- The test `price_float < 0` of the source: NaN and +inf compare `False`,
-inf compares `True`. -/
def PyFloat.ltZero : PyFloat → Bool
  | .fin q => decide (q < 0)
  | .inf => false
  | .ninf => true
  | .nan => false

/-- Python values that can appear as fields of the records the program
handles: `None`, `bool`, `int`, `float`, `str`. -/
inductive Value where
  | none : Value
  | bool : Bool → Value
  | int : Int → Value
  | float : Rat → Value
  | str : String → Value
deriving DecidableEq, Repr

/-- Python's `isinstance(v, int)`.  In Python `bool` is a subclass of `int`, so
booleans pass this check. -/
def isIntVal : Value → Bool
  | .int _ => true
  | .bool _ => true
  | _ => false

/-- The integer value of an int-instance (`True` counts as 1, `False` as 0);
unused on other values. -/
def valToInt : Value → Int
  | .int n => n
  | .bool b => if b then 1 else 0
  | _ => 0

/-- The six ASCII whitespace characters, the ASCII fragment of both Python's
`str.strip()` default set and the regex class `\s`. -/
def isPySpace (c : Char) : Bool :=
  c = ' ' || c = '\t' || c = '\n' || c = '\x0d' || c = '\x0b' || c = '\x0c'

/-- Python's `str.strip()`: remove leading and trailing whitespace. -/
def stripStr (s : String) : String :=
  ⟨(((s.data.dropWhile isPySpace).reverse.dropWhile isPySpace).reverse)⟩

/-- Attribute access `v.strip()`: only strings have a `strip` attribute, any other value
raises `AttributeError`. -/
def pyStrip : Value → Except PyExc String
  | .str s => .ok (stripStr s)
  | _ => .error .attributeError

/-- Decimal digits of the fraction `r / d` (with `r < d`), fuel-bounded;
every float literal the program handles has a short exact expansion. -/
def fracDigits : Nat → Nat → Nat → String
  | 0, _, _ => ""
  | _, 0, _ => ""
  | fuel + 1, r, d => toString (r * 10 / d) ++ fracDigits fuel (r * 10 % d) d

/-- Rendering `str`/`repr` of a float, for the f-string error messages: `-50.0` prints
as `"-50.0"`.  Modelled for floats with a short finite decimal expansion
(all floats the program handles). -/
def floatRepr (q : Rat) : String :=
  let n : Nat := q.num.natAbs
  let d : Nat := q.den
  (if q < 0 then "-" else "") ++ toString (n / d) ++ "." ++
    (if n % d = 0 then "0" else fracDigits 17 (n % d) d)

/-- Rendering `str(v)` as used inside the f-string error messages. -/
def pyStr : Value → String
  | .none => "None"
  | .bool b => if b then "True" else "False"
  | .int n => toString n
  | .float q => floatRepr q
  | .str s => s

instance {ε α : Type _} [DecidableEq ε] [DecidableEq α] : DecidableEq (Except ε α) := fun
  | .ok a, .ok b => decidable_of_iff (a = b) (by simp)
  | .error a, .error b => decidable_of_iff (a = b) (by simp)
  | .ok _, .error _ => .isFalse (by simp)
  | .error _, .ok _ => .isFalse (by simp)

/-- A record is a Python dict with string keys: an association list (keys are
unique in the program's data). -/
abbrev Record := List (String × Value)

/-- Python's `record.get(key, default)`. -/
def Record.getD (r : Record) (k : String) (d : Value) : Value :=
  match List.find? (fun p => p.1 == k) r with
  | some p => p.2
  | none => d

/-- Python's `record.get(key)`: `None` when the key is absent. -/
def Record.get (r : Record) (k : String) : Value :=
  r.getD k Value.none

/-- The value of a run of decimal digit characters. -/
def digitsVal (cs : List Char) : Nat :=
  cs.foldl (fun a c => a * 10 + (c.toNat - 48)) 0

/-- Exponent suffix of a Python float literal: after `e`/`E`, an optional
sign and digits. -/
def parseExp (base : Rat) (cs : List Char) : Option Rat :=
  let signNeg := cs.head? = some '-'
  let cs2 := if cs.head? = some '-' || cs.head? = some '+' then cs.drop 1 else cs
  let eD := cs2.takeWhile Char.isDigit
  if eD.isEmpty || !(cs2.drop eD.length).isEmpty then none
  else some (if signNeg then base / (10 : Rat) ^ digitsVal eD
             else base * (10 : Rat) ^ digitsVal eD)

/-- Body of a Python float literal after the sign: `digits`, `digits.digits?`,
`.digits`, each with an optional exponent. -/
def parseFloatCore (cs : List Char) : Option Rat :=
  let intD := cs.takeWhile Char.isDigit
  let rest := cs.drop intD.length
  match rest with
  | [] => if intD.isEmpty then none else some ((digitsVal intD : Nat) : Rat)
  | '.' :: r2 =>
    let fracD := r2.takeWhile Char.isDigit
    let r3 := r2.drop fracD.length
    if intD.isEmpty && fracD.isEmpty then none
    else
      let base : Rat :=
        ((digitsVal intD : Nat) : Rat) +
          ((digitsVal fracD : Nat) : Rat) / (10 : Rat) ^ fracD.length
      match r3 with
      | [] => some base
      | 'e' :: r4 => parseExp base r4
      | 'E' :: r4 => parseExp base r4
      | _ => none
  | 'e' :: r2 => if intD.isEmpty then none else parseExp ((digitsVal intD : Nat) : Rat) r2
  | 'E' :: r2 => if intD.isEmpty then none else parseExp ((digitsVal intD : Nat) : Rat) r2
  | _ => none

/-- Conversion `float(s)` on a string: strip whitespace, optional sign, then a decimal
literal or `inf`/`infinity`/`nan` (case-insensitive); otherwise
`ValueError`.  (Underscore digit separators are not modelled; no value in
the program uses them.) -/
def parseFloat (s : String) : Except PyExc PyFloat :=
  let cs := (stripStr s).data
  let neg := cs.head? = some '-'
  let cs2 := if cs.head? = some '-' || cs.head? = some '+' then cs.drop 1 else cs
  let lower := cs2.map Char.toLower
  if lower = "inf".data || lower = "infinity".data then
    .ok (if neg then .ninf else .inf)
  else if lower = "nan".data then .ok .nan
  else
    match parseFloatCore cs2 with
    | some q => .ok (.fin (if neg then -q else q))
    | none => .error .valueError

/-- Conversion `float(price)`: numbers and booleans convert, strings are parsed
(`ValueError` on failure), `None` and anything non-numeric raise
`TypeError`. -/
def pyFloat : Value → Except PyExc PyFloat
  | .int n => .ok (.fin (n : Rat))
  | .bool b => .ok (.fin (if b then 1 else 0))
  | .float q => .ok (.fin q)
  | .str s => parseFloat s
  | .none => .error .typeError

/-- Character class `[A-Za-z\s]` of the user-name regex. -/
def isNameChar (c : Char) : Bool := c.isAlpha || isPySpace c

/-- The test `re.match(r'^[A-Za-z\s]+$', s)` on an already-stripped string: nonempty
and every character a letter or whitespace. -/
def nameMatches (s : String) : Bool :=
  !s.isEmpty && s.data.all isNameChar

/-- Character class `[A-Za-z0-9\s]` of the product-name regex. -/
def isProdNameChar (c : Char) : Bool := c.isAlpha || c.isDigit || isPySpace c

/-- The test `re.match(r'^[A-Za-z0-9\s]+$', s)` on an already-stripped string. -/
def prodNameMatches (s : String) : Bool :=
  !s.isEmpty && s.data.all isProdNameChar

/-- Character class `[a-zA-Z0-9. %+-]` of the email regex's local part.
Note the class contains a literal space character. -/
def isLocalChar (c : Char) : Bool :=
  c.isAlpha || c.isDigit || c = '.' || c = ' ' || c = '%' || c = '+' || c = '-'

/-- Character class `[a-zA-Z-0-9.-]` of the email regex's domain part:
letters, digits, hyphen, dot (the `-` after `A-Z` is literal). -/
def isDomainChar (c : Char) : Bool :=
  c.isAlpha || c.isDigit || c = '-' || c = '.'

/-- The test `re.match(r'^[a-zA-Z0-9. %+-]+@[a-zA-Z-0-9.-]+\.[a-zA-Z]{2,}$', s)` on an
already-stripped string: some decomposition `local ++ "@" ++ domain ++ "." ++
tld` with nonempty `local` over the local class, nonempty `domain` over the
domain class, and a final label of 2+ letters. -/
def emailMatches (s : String) : Bool :=
  let cs := s.data
  (List.range cs.length).any fun i =>
    cs.get? i = some '@' &&
    (let l := cs.take i
     !l.isEmpty && l.all isLocalChar &&
     (let r := cs.drop (i + 1)
      (List.range r.length).any fun j =>
        r.get? j = some '.' &&
        (let d := r.take j
         !d.isEmpty && d.all isDomainChar &&
         (let t := r.drop (j + 1)
          decide (2 ≤ t.length) && t.all Char.isAlpha))))

/-- Function `ValidationRules.validate_user` (lines 11-24 of the source).  `Except`
error = an exception escaping the validator (`.strip()` on a non-string). -/
def validateUser (user : Record) : Except PyExc (Option String) :=
  let idv := user.get "id"
  if !isIntVal idv || valToInt idv ≤ 0 then
    .ok (some ("Invalid user ID: " ++ pyStr idv ++ ". Must be a positive integer."))
  else
    match pyStrip (user.getD "name" (Value.str "")) with
    | .error e => .error e
    | .ok name =>
      if name = "" || !nameMatches name then
        .ok (some ("Invalid name: " ++ name ++ ". Must contain only letters and spaces."))
      else
        match pyStrip (user.getD "email" (Value.str "")) with
        | .error e => .error e
        | .ok email =>
          if email = "" || !emailMatches email then
            .ok (some ("Invalid email: " ++ email ++ ". Must be a valid email address."))
          else
            .ok Option.none

/-- Function `ValidationRules.validate_product` (lines 27-43 of the source). -/
def validateProduct (product : Record) : Except PyExc (Option String) :=
  let idv := product.get "id"
  if !isIntVal idv || valToInt idv ≤ 0 then
    .ok (some ("Invalid product ID: " ++ pyStr idv ++ ". Must be a positive integer"))
  else
    match pyStrip (product.getD "name" (Value.str "")) with
    | .error e => .error e
    | .ok name =>
      if name = "" || !prodNameMatches name then
        .ok (some ("Invalid product name: " ++ name ++ ". Must contain only letters and sapaces."))
      else
        let price := product.get "price"
        match pyFloat price with
        | .ok f =>
          if f.ltZero then
            .ok (some ("Invalid price: " ++ pyStr price ++ ". Price must be non-negative."))
          else
            .ok Option.none
        | .error .typeError =>
          .ok (some ("Invalid price: " ++ pyStr price ++ ". Must be a number."))
        | .error .valueError =>
          .ok (some ("Invalid price: " ++ pyStr price ++ ". Must be a number."))
        | .error e => .error e

/-- Function `ValidationRules.validate_order` (lines 46-62 of the source).  Note line
54 of the source reads the product reference from `order.get('user_id')`. -/
def validateOrder (order : Record) : Except PyExc (Option String) :=
  let idv := order.get "id"
  if !isIntVal idv || valToInt idv ≤ 0 then
    .ok (some ("Invalid order ID: " ++ pyStr idv ++ ". Must be a positive integer"))
  else
    let userId := order.get "user_id"
    if !isIntVal userId || valToInt userId ≤ 0 then
      .ok (some ("Invalid user ID: " ++ pyStr userId ++ ". Must be a positive integer"))
    else
      let productId := order.get "user_id"
      if !isIntVal productId || valToInt productId ≤ 0 then
        .ok (some ("Invalid product ID: " ++ pyStr productId ++ ". Must be a positive integer"))
      else
        let quantity := order.get "quantity"
        if !isIntVal quantity then
          .ok (some ("Invalid quanitty: " ++ pyStr quantity ++ ". Must be an integer."))
        else
          .ok Option.none

/-- The `status` key of a result dict of `_insert_record`. -/
inductive Status where
  | success : Status
  | validation_error : Status
  | insertion_error : Status
deriving DecidableEq, Repr

/-- A result dict of `_insert_record`: always the original record and a
status, plus an error message (`error` key) or a row id (`rowid` key). -/
structure Outcome where
  record : Record
  status : Status
  error : Option String
  rowid : Option Nat
deriving DecidableEq, Repr

/-- Function `DatabaseManager._insert_record` (lines 84-115 of the source), generic
over the store type `σ` and the storage layer `write` (the
lock/connect/execute/commit block; its `Except.error` models a raised
exception, and a raised exception leaves the store unchanged — the
connection context manager rolls back).  Only `sqlite3.Error` is caught and
converted to an `insertion_error` outcome; the validation call sits outside
the `try`, so an exception escaping the validator propagates, as does any
non-sqlite exception from the storage layer. -/
def insertRecord {σ : Type} (validate : Record → Except PyExc (Option String))
    (write : σ → Record → Except PyExc (Nat × σ)) (store : σ) (rec : Record) :
    Except PyExc (Outcome × σ) :=
  match validate rec with
  | .error e => .error e
  | .ok (some err) =>
    .ok ({ record := rec, status := .validation_error, error := some err, rowid := Option.none },
      store)
  | .ok Option.none =>
    match write store rec with
    | .ok (rid, store') =>
      .ok ({ record := rec, status := .success, error := Option.none, rowid := some rid }, store')
    | .error (.sqliteError msg) =>
      .ok ({ record := rec, status := .insertion_error, error := some msg, rowid := Option.none },
        store)
    | .error e => .error e

/-- The fan-out part of `simulate_insertions` for one kind (lines 166-201):
one worker per record, submitted in batch order; the global lock serializes
all writes, modelled by threading the store through the workers in
submission order.  The i-th entry is the i-th future's result: either an
outcome or the exception the worker raised (which leaves the store
unchanged). -/
def runWorkers {σ : Type} (validate : Record → Except PyExc (Option String))
    (write : σ → Record → Except PyExc (Nat × σ)) :
    σ → List Record → List (Except PyExc Outcome) × σ
  | store, [] => ([], store)
  | store, r :: rs =>
    match insertRecord validate write store r with
    | .ok (o, store') =>
      (.ok o :: (runWorkers validate write store' rs).1,
        (runWorkers validate write store' rs).2)
    | .error e =>
      (.error e :: (runWorkers validate write store rs).1,
        (runWorkers validate write store rs).2)

/-- The collection loop `[future.result() for future in as_completed(fs)]`:
`order` is the completion order (a permutation of the future indices);
`future.result()` re-raises the worker's exception, aborting the whole
comprehension (and hence the run). -/
def collectResults : List (Except PyExc Outcome) → List Nat → Except PyExc (List Outcome)
  | _, [] => .ok []
  | fs, i :: rest =>
    match fs.get? i with
    | Option.none => collectResults fs rest
    | some (.error e) => .error e
    | some (.ok o) => (collectResults fs rest).map (o :: ·)

/-- A well-behaved sqlite store for concrete runs: a list of committed rows;
`lastrowid` is the row count after the append. -/
def goodWrite (store : List Record) (rec : Record) : Except PyExc (Nat × List Record) :=
  .ok (store.length + 1, store ++ [rec])

/-- The positive-integer id check of the source, as a predicate: the value
is an `int` instance (booleans included) and positive. -/
def idOk (v : Value) : Bool := isIntVal v && decide (0 < valToInt v)

theorem pyFloat_error_cases (v : Value) (e : PyExc) (h : pyFloat v = .error e) :
    e = .typeError ∨ e = .valueError := by
  cases v with
  | str s =>
    simp only [pyFloat, parseFloat] at h
    repeat' split at h
    all_goals simp_all
  | none => simp_all [pyFloat]
  | int n => simp_all [pyFloat]
  | bool b => simp_all [pyFloat]
  | float q => simp_all [pyFloat]

/-- C1: the order validator reads the product reference from the order's
`user_id` field (source line 54), not from `product_id`: an order whose
`product_id` is `-5` but whose `user_id` is a valid positive integer passes
validation with no error, although the claim (and the spec's stated rule)
requires a validation error naming the product id. -/
theorem validateOrder_ignores_productId :
    validateOrder [("id", Value.int 1), ("user_id", Value.int 1),
      ("product_id", Value.int (-5)), ("quantity", Value.int 2)] = .ok Option.none := by
  decide

/-- C2 counterexample: an unexpected worker failure is NOT converted into an
`insertion_error` outcome.  The validation call sits outside the `try` block
of `_insert_record`, so the `AttributeError` raised by `.strip()` on a
record whose `name` field is `None` propagates out of the worker instead of
yielding any outcome. -/
theorem insertRecord_propagates_attributeError :
    insertRecord validateUser goodWrite []
      [("id", Value.int 3), ("name", Value.none), ("email", Value.str "c@d.com")] =
      .error PyExc.attributeError := by
  decide

/-- C2 (amended): during the per-record insert, only exceptions classified
as storage errors (`sqlite3.Error`) are converted into an `insertion_error`
outcome carrying the underlying message; any other exception raised by the
storage layer propagates out of the worker (and, re-raised by
`future.result()`, aborts the whole run). -/
theorem insertRecord_error_classification {σ : Type}
    (validate : Record → Except PyExc (Option String))
    (write : σ → Record → Except PyExc (Nat × σ)) (store : σ) (rec : Record) (e : PyExc)
    (hv : validate rec = .ok Option.none) (hw : write store rec = .error e) :
    (∀ m, e = PyExc.sqliteError m →
      insertRecord validate write store rec =
        .ok ({ record := rec, status := .insertion_error, error := some m,
               rowid := Option.none }, store)) ∧
    ((∀ m, e ≠ PyExc.sqliteError m) → insertRecord validate write store rec = .error e) := by
  constructor
  · rintro m rfl
    simp [insertRecord, hv, hw]
  · intro hne
    cases e with
    | sqliteError m => exact absurd rfl (hne m)
    | attributeError => simp [insertRecord, hv, hw]
    | typeError => simp [insertRecord, hv, hw]
    | valueError => simp [insertRecord, hv, hw]
    | otherError m => simp [insertRecord, hv, hw]

theorem insertRecord_error_classification_witness :
    insertRecord validateUser (fun _ _ => .error (PyExc.sqliteError "database is locked"))
      ([] : List Record)
      [("id", Value.int 1), ("name", Value.str "Alice"),
        ("email", Value.str "alice@example.com")] =
      .ok ({ record := [("id", Value.int 1), ("name", Value.str "Alice"),
                        ("email", Value.str "alice@example.com")],
             status := .insertion_error, error := some "database is locked",
             rowid := Option.none }, []) :=
  (insertRecord_error_classification validateUser
    (fun _ _ => .error (PyExc.sqliteError "database is locked")) [] _ _
    (by decide) rfl).1 _ rfl

/-- C3: if validation returns an error, `_insert_record` returns a
`validation_error` outcome carrying that message and the store is untouched:
the result holds for every storage layer `write` and returns the store
unchanged, so no write is ever performed for a record that failed
validation. -/
theorem insertRecord_validation_error_no_write {σ : Type}
    (validate : Record → Except PyExc (Option String))
    (write : σ → Record → Except PyExc (Nat × σ)) (store : σ) (rec : Record) (err : String)
    (h : validate rec = .ok (some err)) :
    insertRecord validate write store rec =
      .ok ({ record := rec, status := .validation_error, error := some err,
             rowid := Option.none }, store) := by
  simp [insertRecord, h]

theorem insertRecord_validation_error_no_write_witness :
    insertRecord validateUser goodWrite ([] : List Record)
      [("id", Value.int 10), ("name", Value.str ""), ("email", Value.str "jane@example.com")] =
      .ok ({ record := [("id", Value.int 10), ("name", Value.str ""),
                        ("email", Value.str "jane@example.com")],
             status := .validation_error,
             error := some "Invalid name: . Must contain only letters and spaces.",
             rowid := Option.none }, []) :=
  insertRecord_validation_error_no_write validateUser goodWrite [] _ _ (by decide)

/-- C5: for every record whose `id` field is missing, not an int instance,
zero, or negative, each of the three validators returns, as its first and
short-circuiting check, a validation error naming the offending id value
(the result depends on no other field of the record). -/
theorem validate_id_check_first (r : Record)
    (h : idOk (r.get "id") = false) :
    validateUser r = .ok (some ("Invalid user ID: " ++ pyStr (r.get "id") ++
      ". Must be a positive integer.")) ∧
    validateProduct r = .ok (some ("Invalid product ID: " ++ pyStr (r.get "id") ++
      ". Must be a positive integer")) ∧
    validateOrder r = .ok (some ("Invalid order ID: " ++ pyStr (r.get "id") ++
      ". Must be a positive integer")) := by
  unfold idOk at h
  cases hi : isIntVal (r.get "id") with
  | false =>
    refine ⟨?_, ?_, ?_⟩ <;>
      simp [validateUser, validateProduct, validateOrder, hi]
  | true =>
    rw [hi] at h
    simp only [Bool.true_and, decide_eq_false_iff_not, not_lt] at h
    refine ⟨?_, ?_, ?_⟩ <;>
      simp [validateUser, validateProduct, validateOrder, hi, h]

theorem validate_id_check_first_witness :
    validateUser [("name", Value.str "Alice"), ("email", Value.str "alice@example.com")] =
      .ok (some "Invalid user ID: None. Must be a positive integer.") ∧
    validateProduct [("name", Value.str "Alice"), ("email", Value.str "alice@example.com")] =
      .ok (some "Invalid product ID: None. Must be a positive integer") ∧
    validateOrder [("name", Value.str "Alice"), ("email", Value.str "alice@example.com")] =
      .ok (some "Invalid order ID: None. Must be a positive integer") :=
  validate_id_check_first [("name", Value.str "Alice"),
    ("email", Value.str "alice@example.com")] (by decide)

/-- C10: Python booleans are `int` instances, so `True` passes every
positive-integer id check (it counts as 1) while `False` is rejected as
non-positive: a user record with `id = True` passes `validate_user`
entirely, a user record with `id = False` gets the id error naming `False`,
and an order with `user_id = True` and `quantity = True` also validates. -/
theorem validate_bool_id_as_int :
    validateUser [("id", Value.bool true), ("name", Value.str "Alice"),
      ("email", Value.str "alice@example.com")] = .ok Option.none ∧
    validateUser [("id", Value.bool false), ("name", Value.str "Alice"),
      ("email", Value.str "alice@example.com")] =
      .ok (some "Invalid user ID: False. Must be a positive integer.") ∧
    validateOrder [("id", Value.int 1), ("user_id", Value.bool true),
      ("product_id", Value.int 1), ("quantity", Value.bool true)] = .ok Option.none := by
  refine ⟨by decide, by decide, by decide⟩


theorem idOk_parts (v : Value) (h : idOk v = true) :
    isIntVal v = true ∧ ¬ valToInt v ≤ 0 := by
  simp only [idOk, Bool.and_eq_true, decide_eq_true_eq] at h
  obtain ⟨h1, h2⟩ := h
  exact ⟨h1, by omega⟩

theorem pyStrip_str (s : String) : pyStrip (Value.str s) = .ok (stripStr s) := rfl

theorem invalid_name_msg_ne_email_msg (a b : String) :
    "Invalid name: " ++ a ++ ". Must contain only letters and spaces." ≠
      "Invalid email: " ++ b ++ ". Must be a valid email address." := by
  intro hcontra
  have hd := congrArg String.data hcontra
  rw [String.data_append, String.data_append, String.data_append,
    String.data_append] at hd
  have hlen1 : ("Invalid name: ".data).length = 14 := rfl
  have hlen2 : ("Invalid email: ".data).length = 15 := rfl
  have h8 := congrArg (fun l => l.get? 8) hd
  simp only at h8
  rw [List.get?_append (by rw [List.length_append, hlen1]; omega)] at h8
  rw [List.get?_append (by rw [hlen1]; omega)] at h8
  rw [List.get?_append (by rw [List.length_append, hlen2]; omega)] at h8
  rw [List.get?_append (by rw [hlen2]; omega)] at h8
  exact absurd h8 (by decide)

/-- C6 counterexample: the name regex `^[A-Za-z\s]+$` accepts any nonempty
mix of letters and whitespace, so a trimmed name with two consecutive
spaces between letter runs is NOT rejected: the whole user record
validates. -/
theorem name_double_space_accepted :
    validateUser [("id", Value.int 1), ("name", Value.str "Ab  Cd"),
      ("email", Value.str "x@y.com")] = .ok Option.none := by
  decide

/-- C6 (amended): for a user record with a valid id and a string name, the
name check rejects exactly the trimmed names that are empty or contain a
character other than an ASCII letter or whitespace — any arrangement of
letters and whitespace (consecutive spaces included) is accepted;
`"Alice"` passes the name check and `"Alice123"` is rejected with an error
naming the trimmed name. -/
theorem validateUser_name_check (r : Record) (ns : String)
    (hid : idOk (r.get "id") = true)
    (hname : r.getD "name" (Value.str "") = Value.str ns) :
    validateUser r = .ok (some ("Invalid name: " ++ stripStr ns ++
        ". Must contain only letters and spaces.")) ↔
      nameMatches (stripStr ns) = false := by
  obtain ⟨hi, hple⟩ := idOk_parts _ hid
  by_cases hm : nameMatches (stripStr ns) = true
  · constructor
    · intro hcontra
      simp only [validateUser, hname, pyStrip_str] at hcontra
      rw [if_neg (by simp [hi, hple])] at hcontra
      have hne : ¬ stripStr ns = "" := by
        intro h0
        rw [h0] at hm
        exact absurd hm (by decide)
      rw [if_neg (by simp [hne, hm])] at hcontra
      cases he : pyStrip (r.getD "email" (Value.str "")) with
      | error e =>
        rw [he] at hcontra
        exact absurd hcontra (by simp)
      | ok em =>
        rw [he] at hcontra
        simp only [] at hcontra
        by_cases hec : (decide (em = "") || !emailMatches em) = true
        · rw [if_pos hec] at hcontra
          exact absurd (Option.some.inj (Except.ok.inj hcontra)).symm
            (invalid_name_msg_ne_email_msg _ _)
        · rw [if_neg hec] at hcontra
          exact absurd hcontra (by simp)
    · intro hcontra
      exact absurd hm (by simp [hcontra])
  · have hm' : nameMatches (stripStr ns) = false := by
      cases hb : nameMatches (stripStr ns)
      · rfl
      · exact absurd hb hm
    simp only [validateUser, hname, pyStrip_str]
    rw [if_neg (by simp [hi, hple]), if_pos (by simp [hm'])]
    simp [hm']

theorem validateUser_name_check_witness :
    (validateUser [("id", Value.int 7), ("name", Value.str "Alice123"),
        ("email", Value.str "grace@example.com")] =
      .ok (some "Invalid name: Alice123. Must contain only letters and spaces.") ∧
      nameMatches "Alice123" = false) ∧
    (validateUser [("id", Value.int 7), ("name", Value.str "Alice"),
        ("email", Value.str "grace@example.com")] ≠
      .ok (some "Invalid name: Alice. Must contain only letters and spaces.") ∧
      nameMatches "Alice" = true) := by
  constructor
  · refine ⟨?_, by decide⟩
    exact (validateUser_name_check _ "Alice123" (by decide) (by decide)).mpr (by decide)
  · refine ⟨?_, by decide⟩
    intro hcontra
    have hfalse := (validateUser_name_check
      [("id", Value.int 7), ("name", Value.str "Alice"),
        ("email", Value.str "grace@example.com")] "Alice" (by decide) (by decide)).mp hcontra
    exact absurd hfalse (by decide)

/-- C7 counterexample: the local-part character class of the email regex,
`[a-zA-Z0-9. %+-]`, contains a literal space, so an email whose local part
contains a space is NOT rejected: the whole user record validates. -/
theorem email_space_in_local_part_accepted :
    validateUser [("id", Value.int 1), ("name", Value.str "Alice"),
      ("email", Value.str "ali ce@example.com")] = .ok Option.none := by
  decide

/-- C7 (amended): for a user record with a valid id, a string name passing
the name check, and a string email, the email check accepts exactly the
trimmed strings decomposable as `local@domain.tld` where the local part is
a nonempty run over letters, digits, dot, space, percent, plus, and hyphen
(NB: space is in the class), the domain is a nonempty run over letters,
digits, hyphen, and dot, and the final label is 2+ letters;
`"alice@example.com"` passes and `"alice@@example"` is rejected with an
error naming the email. -/
theorem validateUser_email_check (r : Record) (ns es : String)
    (hid : idOk (r.get "id") = true)
    (hname : r.getD "name" (Value.str "") = Value.str ns)
    (hnok : nameMatches (stripStr ns) = true)
    (hemail : r.getD "email" (Value.str "") = Value.str es) :
    validateUser r = .ok Option.none ↔ emailMatches (stripStr es) = true := by
  obtain ⟨hi, hple⟩ := idOk_parts _ hid
  have hne : ¬ stripStr ns = "" := by
    intro h0
    rw [h0] at hnok
    exact absurd hnok (by decide)
  simp only [validateUser, hname, hemail, pyStrip_str]
  rw [if_neg (by simp [hi, hple]), if_neg (by simp [hne, hnok])]
  by_cases hm : emailMatches (stripStr es) = true
  · have hene : ¬ stripStr es = "" := by
      intro h0
      rw [h0] at hm
      exact absurd hm (by decide)
    rw [if_neg (by simp [hene, hm])]
    simp [hm]
  · have hm' : emailMatches (stripStr es) = false := by
      cases hb : emailMatches (stripStr es)
      · rfl
      · exact absurd hb hm
    rw [if_pos (by simp [hm'])]
    simp [hm']

theorem validateUser_email_check_witness :
    (validateUser [("id", Value.int 2), ("name", Value.str "Bob"),
        ("email", Value.str "alice@example.com")] = .ok Option.none ∧
      emailMatches "alice@example.com" = true) ∧
    (validateUser [("id", Value.int 2), ("name", Value.str "Bob"),
        ("email", Value.str "alice@@example")] ≠ .ok Option.none ∧
      emailMatches "alice@@example" = false) := by
  constructor
  · refine ⟨?_, by decide⟩
    exact (validateUser_email_check _ "Bob" "alice@example.com"
      (by decide) (by decide) (by decide) (by decide)).mpr (by decide)
  · refine ⟨?_, by decide⟩
    intro hcontra
    have hfalse := (validateUser_email_check
      [("id", Value.int 2), ("name", Value.str "Bob"),
        ("email", Value.str "alice@@example")] "Bob" "alice@@example"
      (by decide) (by decide) (by decide) (by decide)).mp hcontra
    exact absurd hfalse (by decide)

/-- C8: for a product record with a valid id and a valid string name, the
price check distinguishes three cases exactly as the claim states: a price
on which `float(...)` raises (a non-numeric string such as `"abc"`, or a
missing price, i.e. `None`) yields the error `"... Must be a number."`; a
converted float below zero yields the distinct error
`"... Price must be non-negative."`; and a converted float not below zero
passes the whole validation. -/
theorem validateProduct_price_classification (r : Record) (ns : String)
    (hid : idOk (r.get "id") = true)
    (hname : r.getD "name" (Value.str "") = Value.str ns)
    (hnok : prodNameMatches (stripStr ns) = true) :
    (∀ e, pyFloat (r.get "price") = .error e →
      validateProduct r = .ok (some ("Invalid price: " ++ pyStr (r.get "price") ++
        ". Must be a number."))) ∧
    (∀ f, pyFloat (r.get "price") = .ok f → f.ltZero = true →
      validateProduct r = .ok (some ("Invalid price: " ++ pyStr (r.get "price") ++
        ". Price must be non-negative."))) ∧
    (∀ f, pyFloat (r.get "price") = .ok f → f.ltZero = false →
      validateProduct r = .ok Option.none) := by
  obtain ⟨hi, hple⟩ := idOk_parts _ hid
  have hne : ¬ stripStr ns = "" := by
    intro h0
    rw [h0] at hnok
    exact absurd hnok (by decide)
  refine ⟨?_, ?_, ?_⟩
  · intro e he
    rcases pyFloat_error_cases _ _ he with rfl | rfl <;>
      · simp only [validateProduct, hname, pyStrip_str]
        rw [if_neg (by simp [hi, hple]), if_neg (by simp [hne, hnok]), he]
  · intro f hf hlt
    simp only [validateProduct, hname, pyStrip_str]
    rw [if_neg (by simp [hi, hple]), if_neg (by simp [hne, hnok]), hf]
    simp only [hlt, if_true]
  · intro f hf hlt
    simp only [validateProduct, hname, pyStrip_str]
    rw [if_neg (by simp [hi, hple]), if_neg (by simp [hne, hnok]), hf]
    simp only [hlt]
    simp

theorem validateProduct_price_classification_witness :
    (validateProduct [("id", Value.int 1), ("name", Value.str "Laptop"),
        ("price", Value.str "abc")] =
      .ok (some "Invalid price: abc. Must be a number.")) ∧
    (validateProduct [("id", Value.int 2), ("name", Value.str "Smartphone")] =
      .ok (some "Invalid price: None. Must be a number.")) ∧
    (validateProduct [("id", Value.int 10), ("name", Value.str "Earbuds"),
        ("price", Value.float (-50))] =
      .ok (some "Invalid price: -50.0. Price must be non-negative.")) ∧
    (validateProduct [("id", Value.int 6), ("name", Value.str "Mouse"),
        ("price", Value.float 30)] = .ok Option.none) := by
  refine ⟨?_, ?_, ?_, ?_⟩
  · exact (validateProduct_price_classification _ "Laptop" (by decide) (by decide)
      (by decide)).1 PyExc.valueError (by decide)
  · exact (validateProduct_price_classification _ "Smartphone" (by decide) (by decide)
      (by decide)).1 PyExc.typeError (by decide)
  · exact (validateProduct_price_classification _ "Earbuds" (by decide) (by decide)
      (by decide)).2.1 (PyFloat.fin (-50)) (by decide) (by decide)
  · exact (validateProduct_price_classification _ "Mouse" (by decide) (by decide)
      (by decide)).2.2 (PyFloat.fin 30) (by decide) (by decide)

/-- C9: for an order record whose id and user_id pass the positive-integer
checks (which, because line 54 re-reads `user_id`, also makes the product
reference check pass), any value that is an `int` instance — including zero
and negative integers — passes the quantity check and the whole validation,
while a missing or non-integer quantity yields a validation error naming
the quantity value. -/
theorem validateOrder_quantity_rule (r : Record)
    (hid : idOk (r.get "id") = true) (huid : idOk (r.get "user_id") = true) :
    (isIntVal (r.get "quantity") = true → validateOrder r = .ok Option.none) ∧
    (isIntVal (r.get "quantity") = false →
      validateOrder r = .ok (some ("Invalid quanitty: " ++ pyStr (r.get "quantity") ++
        ". Must be an integer."))) := by
  obtain ⟨hi, hple⟩ := idOk_parts _ hid
  obtain ⟨hui, huple⟩ := idOk_parts _ huid
  constructor
  · intro hq
    simp [validateOrder, hi, hple, hui, huple, hq]
  · intro hq
    simp [validateOrder, hi, hple, hui, huple, hq]

theorem validateOrder_quantity_rule_witness :
    (validateOrder [("id", Value.int 8), ("user_id", Value.int 8),
      ("product_id", Value.int 8), ("quantity", Value.int 0)] = .ok Option.none) ∧
    (validateOrder [("id", Value.int 11), ("user_id", Value.int 9),
      ("product_id", Value.int 1), ("quantity", Value.int (-1))] = .ok Option.none) ∧
    (validateOrder [("id", Value.int 12), ("user_id", Value.int 10),
      ("product_id", Value.int 11), ("quantity", Value.str "two")] =
      .ok (some "Invalid quanitty: two. Must be an integer.")) ∧
    (validateOrder [("id", Value.int 13), ("user_id", Value.int 2),
      ("product_id", Value.int 3)] =
      .ok (some "Invalid quanitty: None. Must be an integer.")) := by
  refine ⟨?_, ?_, ?_, ?_⟩
  · exact (validateOrder_quantity_rule _ (by decide) (by decide)).1 (by decide)
  · exact (validateOrder_quantity_rule _ (by decide) (by decide)).1 (by decide)
  · exact (validateOrder_quantity_rule _ (by decide) (by decide)).2 (by decide)
  · exact (validateOrder_quantity_rule _ (by decide) (by decide)).2 (by decide)

theorem runWorkers_length {σ : Type} (validate : Record → Except PyExc (Option String))
    (write : σ → Record → Except PyExc (Nat × σ)) (store : σ) (batch : List Record) :
    (runWorkers validate write store batch).1.length = batch.length := by
  induction batch generalizing store with
  | nil => rfl
  | cons r rs ih =>
    cases h : insertRecord validate write store r with
    | ok p =>
      obtain ⟨o, st2⟩ := p
      simp [runWorkers, h, ih]
    | error e => simp [runWorkers, h, ih]

theorem insertRecord_record {σ : Type} (validate : Record → Except PyExc (Option String))
    (write : σ → Record → Except PyExc (Nat × σ)) (store : σ) (rec : Record)
    (o : Outcome) (store' : σ)
    (h : insertRecord validate write store rec = .ok (o, store')) : o.record = rec := by
  unfold insertRecord at h
  repeat' split at h
  all_goals simp_all
  all_goals (obtain ⟨h1, h2⟩ := h; rw [← h1])

theorem runWorkers_get {σ : Type} (validate : Record → Except PyExc (Option String))
    (write : σ → Record → Except PyExc (Nat × σ)) (store : σ) (batch : List Record)
    (i : Nat) (o : Outcome)
    (h : (runWorkers validate write store batch).1.get? i = some (Except.ok o)) :
    batch.get? i = some o.record := by
  induction batch generalizing store i with
  | nil => simp [runWorkers] at h
  | cons r rs ih =>
    cases hins : insertRecord validate write store r with
    | ok p =>
      obtain ⟨o1, st2⟩ := p
      cases i with
      | zero =>
        simp only [runWorkers, hins, List.get?_cons_zero] at h
        have ho : o1 = o := by simpa using h
        subst ho
        simp [insertRecord_record validate write store r o1 st2 hins]
      | succ n =>
        simp only [runWorkers, hins, List.get?_cons_succ] at h
        simpa using ih st2 n h
    | error e =>
      cases i with
      | zero => simp [runWorkers, hins] at h
      | succ n =>
        simp only [runWorkers, hins, List.get?_cons_succ] at h
        simpa using ih store n h

theorem collectResults_ok_eq (fs : List (Except PyExc Outcome)) (order : List Nat)
    (os : List Outcome) (h : collectResults fs order = .ok os) :
    os = order.filterMap (fun i =>
      match fs.get? i with
      | some (Except.ok o) => some o
      | _ => Option.none) := by
  induction order generalizing os with
  | nil =>
    simp only [collectResults] at h
    simp [← Except.ok.inj h]
  | cons i rest ih =>
    simp only [collectResults] at h
    cases hf : fs.get? i with
    | none =>
      rw [hf] at h
      rw [List.filterMap_cons]
      simp only [hf]
      exact ih _ h
    | some ex =>
      cases ex with
      | error e =>
        rw [hf] at h
        exact absurd h (by simp)
      | ok o =>
        rw [hf] at h
        cases hc : collectResults fs rest with
        | error e =>
          rw [hc] at h
          exact absurd h (by simp [Except.map])
        | ok os' =>
          rw [hc] at h
          simp only [Except.map] at h
          rw [List.filterMap_cons]
          simp only [hf]
          rw [← Except.ok.inj h]
          rw [← ih _ hc]
  
theorem collectResults_ok_no_error (fs : List (Except PyExc Outcome)) (order : List Nat)
    (os : List Outcome) (h : collectResults fs order = .ok os) :
    ∀ i ∈ order, ∀ e, fs.get? i ≠ some (Except.error e) := by
  induction order generalizing os with
  | nil => simp
  | cons i rest ih =>
    simp only [collectResults] at h
    cases hf : fs.get? i with
    | none =>
      rw [hf] at h
      intro j hj e
      rcases List.mem_cons.mp hj with rfl | hj2
      · rw [hf]; simp
      · exact ih _ h j hj2 e
    | some ex =>
      cases ex with
      | error e0 =>
        rw [hf] at h
        exact absurd h (by simp)
      | ok o =>
        rw [hf] at h
        cases hc : collectResults fs rest with
        | error e0 =>
          rw [hc] at h
          exact absurd h (by simp [Except.map])
        | ok os' =>
          intro j hj e
          rcases List.mem_cons.mp hj with rfl | hj2
          · rw [hf]; simp
          · exact ih _ hc j hj2 e

theorem range_filterMap_get {α : Type _} (l : List α) :
    (List.range l.length).filterMap (fun i => l.get? i) = l := by
  induction l with
  | nil => simp
  | cons a t ih =>
    rw [List.length_cons, List.range_succ_eq_map, List.filterMap_cons]
    simp only [List.get?_cons_zero]
    rw [List.filterMap_map]
    have hcomp : ((fun i => (a :: t).get? i) ∘ Nat.succ) = fun i => t.get? i := by
      funext i
      simp
    rw [hcomp, ih]

/-- C4 counterexample: a batch of 2 records does not always yield 2
outcomes.  When the second record's name field is a non-string, its worker
raises `AttributeError` (an unclassified exception), and the collection
loop's `future.result()` re-raises it: no outcome list is produced at all
— the run aborts and even the first record's outcome is lost. -/
theorem runBatch_aborts_on_unexpected_worker_failure :
    collectResults
      (runWorkers validateUser goodWrite ([] : List Record)
        [[("id", Value.int 1), ("name", Value.str "Alice"),
            ("email", Value.str "alice@example.com")],
          [("id", Value.int 2), ("name", Value.int 123),
            ("email", Value.str "bob@example.com")]]).1
      [0, 1] = .error PyExc.attributeError := by
  decide

/-- C4 (amended): for every batch whose run completes without an
unclassified worker exception (i.e. the collection loop returns an outcome
list rather than re-raising), and for every completion order (any
permutation of the worker indices), the result list has exactly N outcomes
for N input records, and the multiset of `record` fields of the outcomes is
exactly the input batch — no duplication, no omission — though the list
order may differ from input order. -/
theorem runBatch_outcome_complete {σ : Type}
    (validate : Record → Except PyExc (Option String))
    (write : σ → Record → Except PyExc (Nat × σ)) (store : σ)
    (batch : List Record) (order : List Nat) (os : List Outcome)
    (hord : order.Perm (List.range batch.length))
    (hcol : collectResults (runWorkers validate write store batch).1 order = .ok os) :
    os.length = batch.length ∧ (os.map Outcome.record).Perm batch := by
  have hlen : (runWorkers validate write store batch).1.length = batch.length :=
    runWorkers_length validate write store batch
  have hos := collectResults_ok_eq _ _ _ hcol
  have hne := collectResults_ok_no_error _ _ _ hcol
  have hmap : os.map Outcome.record = order.filterMap (fun i =>
      match (runWorkers validate write store batch).1.get? i with
      | some (Except.ok o) => some o.record
      | _ => Option.none) := by
    rw [hos, List.map_filterMap]
    apply List.filterMap_congr
    intro i _
    cases h1 : (runWorkers validate write store batch).1.get? i with
    | none => simp
    | some ex => cases ex <;> simp
  have hperm : (order.filterMap (fun i =>
      match (runWorkers validate write store batch).1.get? i with
      | some (Except.ok o) => some o.record
      | _ => Option.none)).Perm
      ((List.range batch.length).filterMap (fun i =>
      match (runWorkers validate write store batch).1.get? i with
      | some (Except.ok o) => some o.record
      | _ => Option.none)) :=
    hord.filterMap _
  have hbatch : (List.range batch.length).filterMap (fun i =>
      match (runWorkers validate write store batch).1.get? i with
      | some (Except.ok o) => some o.record
      | _ => Option.none) = batch := by
    have hcongr : ∀ i ∈ List.range batch.length,
        (match (runWorkers validate write store batch).1.get? i with
          | some (Except.ok o) => some o.record
          | _ => Option.none) = batch.get? i := by
      intro i hi
      have hilt : i < (runWorkers validate write store batch).1.length := by
        rw [hlen]
        exact List.mem_range.mp hi
      cases hfe : (runWorkers validate write store batch).1.get? i with
      | none =>
        have := List.get?_eq_none.mp hfe
        omega
      | some ex =>
        cases ex with
        | error e =>
          have hmem : i ∈ order := (hord.mem_iff).mpr hi
          exact absurd hfe (hne i hmem e)
        | ok o =>
          simp only
          exact (runWorkers_get validate write store batch i o hfe).symm
    rw [List.filterMap_congr hcongr]
    exact range_filterMap_get batch
  have hfinal : (os.map Outcome.record).Perm batch := by
    rw [hmap]
    exact hperm.trans (by rw [hbatch])
  refine ⟨?_, hfinal⟩
  have := hfinal.length_eq
  simpa using this

theorem runBatch_outcome_complete_witness :
    ([(⟨[("id", Value.int 5), ("name", Value.str "Eve"), ("email", Value.str "eve@example.com")], Status.success, Option.none, some 1⟩ : Outcome)].length = [[("id", Value.int 5), ("name", Value.str "Eve"), ("email", Value.str "eve@example.com")]].length) ∧
    (([(⟨[("id", Value.int 5), ("name", Value.str "Eve"), ("email", Value.str "eve@example.com")], Status.success, Option.none, some 1⟩ : Outcome)].map Outcome.record).Perm [[("id", Value.int 5), ("name", Value.str "Eve"), ("email", Value.str "eve@example.com")]]) :=
  runBatch_outcome_complete validateUser goodWrite ([] : List Record)
    [[("id", Value.int 5), ("name", Value.str "Eve"), ("email", Value.str "eve@example.com")]]
    [0]
    [(⟨[("id", Value.int 5), ("name", Value.str "Eve"), ("email", Value.str "eve@example.com")], Status.success, Option.none, some 1⟩ : Outcome)]
    (by decide) (by decide)
